import Mathlib

/-!
Verification of the Autonomous-Fleet-Response-System anomaly pipeline.

Shallow embedding of the anomaly service:
`services/anomaly-service/kafka_consumer.py` (ingest adapter),
`services/anomaly-service/kafka_producer.py` (emit adapter),
and the detection core (feature extractor, per-vehicle ring buffer,
rules) which is exercised by `tests/unit/test_features.py` and
`tests/unit/test_anomalies.py`.

Timestamps, speeds and positions are modelled as rationals; yaw
wrapping over the reals is treated separately for the heading-change
feature.

The file is organised as definitions first (the embedding) and then
theorems (helper lemmas followed by the claim theorems).
-/

namespace Fleet

/-- A raw telemetry frame (`RawTelemetryEvent` in `services/schemas/events.py`):
the fields the detection core consults. `event_time` is in seconds. -/
structure Frame where
  event_id : Nat
  vehicle_id : String
  scene_id : String
  frame_index : Nat
  event_time : Rat
  speed : Rat
  centroid_x : Rat
  centroid_y : Rat
  deriving DecidableEq, Repr

/-- An inbound bus message: either a payload that validates into a `Frame`
(`RawTelemetryEvent(**message.value)` succeeds) or a malformed payload
(the constructor raises). -/
inductive Msg where
  | good : Frame → Msg
  | bad : String → Msg
  deriving DecidableEq, Repr

/-- Decoding a message into a frame, as done by
`RawTelemetryEvent(**message.value)` in `KafkaConsumer.consume`. -/
def decode : Msg → Option Frame
  | Msg.good f => some f
  | Msg.bad _ => none

/-- Observable side effects of the adapters: log lines, sleeps (seconds),
handing a frame to the core, publishing, counter increments, flushing and
closing the underlying client. The source never increments a counter;
the constructor `incrCounter` is in the vocabulary so that its absence
from every trace is expressible. -/
inductive Eff where
  | logDebug
  | logInfo
  | logWarning
  | logError
  | sleep : Nat → Eff
  | yieldEvent : Frame → Eff
  | published : Eff
  | incrCounter : String → Eff
  | flushed : Eff
  | closed : Eff
  deriving DecidableEq, Repr

/-- The body of the inner `for message in self._consumer` loop of
`KafkaConsumer.consume` (kafka_consumer.py lines 141-148) on one message:
a decodable message is logged at debug and yielded; a malformed message
is logged at warning and skipped. Nothing else happens — in particular
no deduplication and no counter update. -/
def processMsg (m : Msg) : List Eff :=
  match decode m with
  | some f => [Eff.logDebug, Eff.yieldEvent f]
  | none => [Eff.logWarning]

/-- The inner loop over a batch of messages. -/
def processMsgs (ms : List Msg) : List Eff :=
  ms.flatMap processMsg

/-- The frames handed to the detection core: the `yieldEvent` payloads of
the effect trace, in order. -/
def yields (ms : List Msg) : List Frame :=
  (processMsgs ms).filterMap fun e =>
    match e with
    | Eff.yieldEvent f => some f
    | _ => none

/-! ### Per-vehicle ring buffer (`features/windows.py`, spec-modelled)

Modelled from the spec: `features/windows.py` is not under `src/`; only
`tests/unit/test_features.py` exercises it. The spec (§3, §4.1, §8.5)
says the buffer is a fixed-capacity FIFO of `RING_BUFFER_SIZE = 30`
frames whose snapshot is ordered oldest to newest and whose overflow
drops the oldest element. -/

def RING_BUFFER_SIZE : Nat := 30

/-- Modelled from the spec: `VehicleState.add_frame` appends the new frame;
when the buffer is full the oldest (head) frame is dropped. The list is
the snapshot, oldest first. -/
def add_frame (buf : List Frame) (f : Frame) : List Frame :=
  if buf.length < RING_BUFFER_SIZE then buf ++ [f] else buf.tail ++ [f]

/-- Pushing a whole sequence of frames into the buffer, in order. -/
def add_frames (buf : List Frame) (fs : List Frame) : List Frame :=
  fs.foldl add_frame buf

/-! ### Feature extraction (`features/extractors.py`, spec-modelled) -/

/-- Modelled from the spec: `features/extractors.py` is not under `src/`;
only `tests/unit/test_features.py` exercises it. Spec §4.3: acceleration
requires `k ≥ 2`, computes `Δs = f_last.speed − f_prev.speed` and
`Δt = f_last.event_time − f_prev.event_time` over the newest two frames
of the ordered snapshot, rejects `Δt ≤ 0`, and otherwise returns `Δs / Δt`
(m/s²). The spec's §9 design note records that the source does NOT apply
the additional `Δt > 1.0 s` gap filter, so no such filter is modelled. -/
def extract_acceleration (frames : List Frame) : Option Rat :=
  match frames.reverse with
  | f_last :: f_prev :: _ =>
    let dt := f_last.event_time - f_prev.event_time
    if dt ≤ 0 then none
    else some ((f_last.speed - f_prev.speed) / dt)
  | _ => none

/-! ### Rules and detector (`anomalies/rules.py`, `anomalies/detectors.py`,
spec-modelled) -/

/-- Anomaly severity (spec §3): advisory or urgent. -/
inductive Severity where
  | WARNING
  | CRITICAL
  deriving DecidableEq, Repr

/-- A rule decision (spec §4.4): whether the rule triggered, at which
severity, and which rule produced it. -/
structure Decision where
  triggered : Bool
  severity : Option Severity
  rule_name : String
  deriving DecidableEq, Repr

/-- Thresholds of the sudden-deceleration rule (spec §3, m/s²). -/
structure SuddenDecelThresholds where
  warning : Rat
  critical : Rat
  deriving DecidableEq, Repr

/-- The default thresholds: warning −3.0, critical −5.0. -/
def defaultSuddenDecelThresholds : SuddenDecelThresholds :=
  { warning := -3, critical := -5 }

/-- Modelled from the spec: `anomalies/rules.py` is not under `src/`; only
`tests/unit/test_anomalies.py` exercises it. Spec §4.4 SuddenDeceleration:
absent acceleration → not triggered; `acceleration ≤ critical` → CRITICAL;
else `acceleration ≤ warning` → WARNING; else not triggered. -/
def suddenDecelerationEvaluate (thr : SuddenDecelThresholds)
    (acceleration : Option Rat) : Decision :=
  match acceleration with
  | none => { triggered := false, severity := none, rule_name := "sudden_deceleration" }
  | some a =>
    if a ≤ thr.critical then
      { triggered := true, severity := some Severity.CRITICAL,
        rule_name := "sudden_deceleration" }
    else if a ≤ thr.warning then
      { triggered := true, severity := some Severity.WARNING,
        rule_name := "sudden_deceleration" }
    else
      { triggered := false, severity := none, rule_name := "sudden_deceleration" }

/-- Thresholds of the perception-instability rule (spec §3, meters). -/
structure PerceptionThresholds where
  centroid_warning : Rat
  centroid_critical : Rat
  deriving DecidableEq, Repr

/-- Modelled from the spec: spec §4.4 PerceptionInstability: absent
displacement → not triggered; `displacement ≥ centroid_critical` →
CRITICAL; else `displacement ≥ centroid_warning` → WARNING. -/
def perceptionInstabilityEvaluate (thr : PerceptionThresholds)
    (displacement : Option Rat) : Decision :=
  match displacement with
  | none => { triggered := false, severity := none, rule_name := "perception_instability" }
  | some d =>
    if d ≥ thr.centroid_critical then
      { triggered := true, severity := some Severity.CRITICAL,
        rule_name := "perception_instability" }
    else if d ≥ thr.centroid_warning then
      { triggered := true, severity := some Severity.WARNING,
        rule_name := "perception_instability" }
    else
      { triggered := false, severity := none, rule_name := "perception_instability" }

/-- Modelled from the spec: spec §4.4 DropoutProxy: absent counts → not
triggered; `prev − current ≥ agent_drop` → WARNING (no critical tier). -/
def dropoutProxyEvaluate (agent_drop : Nat)
    (active_agent_count prev_active_agent_count : Option Nat) : Decision :=
  match active_agent_count, prev_active_agent_count with
  | some c, some p =>
    if (p : Int) - (c : Int) ≥ (agent_drop : Int) then
      { triggered := true, severity := some Severity.WARNING,
        rule_name := "dropout_proxy" }
    else
      { triggered := false, severity := none, rule_name := "dropout_proxy" }
  | _, _ => { triggered := false, severity := none, rule_name := "dropout_proxy" }

/-- The per-frame feature map consulted by the rules (spec §3): absent
features are missing, not zero. The heading-change feature is real-valued
and is treated separately; no rule consults it. -/
structure Features where
  acceleration : Option Rat
  centroid_displacement : Option Rat
  deriving DecidableEq, Repr

/-- An emitted anomaly (spec §3): the fields relevant to ordering and
identity. `vehicle_id`, `scene_id` and `frame_index` are copied from the
triggering frame. -/
structure Anomaly where
  vehicle_id : String
  scene_id : String
  frame_index : Nat
  rule_name : String
  severity : Severity
  deriving DecidableEq, Repr

/-- Modelled from the spec: spec §4.4 RuleEngine step 2 — a triggered
decision becomes an Anomaly with fields copied from the frame and
decision; an untriggered decision produces nothing. -/
def mkAnomaly (f : Frame) (d : Decision) : Option Anomaly :=
  match d.severity with
  | some sev =>
    if d.triggered then
      some { vehicle_id := f.vehicle_id, scene_id := f.scene_id,
             frame_index := f.frame_index, rule_name := d.rule_name,
             severity := sev }
    else none
  | none => none

/-- Modelled from the spec: `anomalies/detectors.py` is not under `src/`.
Spec §4.4 RuleEngine.detect: evaluate the registered rules in insertion
order (SuddenDeceleration, PerceptionInstability, DropoutProxy) and turn
each triggered decision into an Anomaly. -/
def detect (thrS : SuddenDecelThresholds) (thrP : PerceptionThresholds)
    (agent_drop : Nat) (f : Frame) (feats : Features)
    (active_agent_count prev_active_agent_count : Option Nat) : List Anomaly :=
  [suddenDecelerationEvaluate thrS feats.acceleration,
   perceptionInstabilityEvaluate thrP feats.centroid_displacement,
   dropoutProxyEvaluate agent_drop active_agent_count prev_active_agent_count
  ].filterMap (mkAnomaly f)

/-! ### The per-vehicle pipeline: state store + detect over the yielded
frames. The state store (`features/windows.py` StateManager, spec-modelled)
maps `vehicle_id` to the ring buffer of its most recent frames. -/

/-- Look a vehicle's buffer up in the store; a vehicle not yet seen has an
empty history (it is created on first frame, spec §3 VehicleState). -/
def storeGet (store : List (String × List Frame)) (v : String) : List Frame :=
  match store.lookup v with
  | some buf => buf
  | none => []

/-- Replace (or create) a vehicle's buffer in the store. -/
def storePut (store : List (String × List Frame)) (v : String)
    (buf : List Frame) : List (String × List Frame) :=
  match store with
  | [] => [(v, buf)]
  | (w, b) :: rest => if w = v then (v, buf) :: rest else (w, b) :: storePut rest v buf

/-- One engine step on one frame (spec §2 pipeline): ingest the frame into
the vehicle's ring buffer, extract features over the fresh snapshot, and
run the rules. `featFn` is the feature computation over the snapshot; the
ordering results below hold for every such function. -/
def processFrame (featFn : List Frame → Features)
    (thrS : SuddenDecelThresholds) (thrP : PerceptionThresholds)
    (agent_drop : Nat) (c p : Option Nat)
    (store : List (String × List Frame)) (f : Frame) :
    List (String × List Frame) × List Anomaly :=
  let buf := add_frame (storeGet store f.vehicle_id) f
  (storePut store f.vehicle_id buf,
   detect thrS thrP agent_drop f (featFn buf) c p)

/-- Run the engine over a list of frames in order, concatenating the
emitted anomalies. -/
def processAll (featFn : List Frame → Features)
    (thrS : SuddenDecelThresholds) (thrP : PerceptionThresholds)
    (agent_drop : Nat) (c p : Option Nat)
    (store : List (String × List Frame)) : List Frame → List Anomaly
  | [] => []
  | f :: fs =>
    let step := processFrame featFn thrS thrP agent_drop c p store f
    step.2 ++ processAll featFn thrS thrP agent_drop c p step.1 fs

/-- Frames are ordered when, on the same vehicle and scene, the earlier one
has the smaller or equal frame index. -/
def FrameOrdered (f g : Frame) : Prop :=
  f.vehicle_id = g.vehicle_id → f.scene_id = g.scene_id →
    f.frame_index ≤ g.frame_index

/-- The same ordering on anomalies, over their triggering frames. -/
def AnomalyOrdered (a b : Anomaly) : Prop :=
  a.vehicle_id = b.vehicle_id → a.scene_id = b.scene_id →
    a.frame_index ≤ b.frame_index

/-- Per-vehicle ordering of inbound messages: whenever both decode, the
decoded frames are ordered. -/
def MsgOrdered (m1 m2 : Msg) : Prop :=
  match decode m1, decode m2 with
  | some f1, some f2 => FrameOrdered f1 f2
  | _, _ => True

/-! ### Heading change over the reals (`features/extractors.py`,
spec-modelled) -/

/-- Two-argument arctangent: the angle of the point `(x, y)` in `(−π, π]`,
realised as the argument of the complex number `x + y·i`. -/
noncomputable def atan2 (y x : ℝ) : ℝ := Complex.arg ⟨x, y⟩

/-- Modelled from the spec: `features/extractors.py` is not under `src/`;
only `tests/unit/test_features.py` exercises it. Spec §4.3 heading_change:
for the newest two yaw values `a` then `b`, compute `Δψ = b − a`, wrap
into `(−π, π]` via `atan2(sin Δψ, cos Δψ)`, and return the absolute
value (radians). -/
noncomputable def extract_heading_change (a b : ℝ) : ℝ :=
  |atan2 (Real.sin (b - a)) (Real.cos (b - a))|

/-! ### The thin Kafka wrappers (`kafka_consumer.py`, `kafka_producer.py`)

Both wrappers keep the same mutable state: an `_initialized` flag, an
optional underlying client and a `_retry_count`; both share the same
exponential-backoff initialization loop (`_ensure_initialized`), with
`_max_retries = 10`, `_base_retry_delay = 2` and `_max_retry_delay = 15`.
The environment records the outcomes of the fallible client operations. -/

/-- The wrapper state: `_initialized`, the underlying client handle
(`_consumer` / `_producer`), and `_retry_count`. -/
structure AdapterState where
  initialized : Bool
  client : Option Unit
  retry_count : Nat
  deriving DecidableEq, Repr

/-- The state right after `__init__`. -/
def freshAdapterState : AdapterState :=
  { initialized := false, client := none, retry_count := 0 }

/-- The backoff delay slept after the `n`-th consecutive failure:
`min(_base_retry_delay * 2^(n-1), _max_retry_delay)` seconds
(kafka_consumer.py line 105, kafka_producer.py line 79). -/
def backoffDelay (n : Nat) : Nat := min (2 * 2 ^ (n - 1)) 15

/-- The `while self._retry_count < self._max_retries` loop body of
`_ensure_initialized`, with `envInit rc` the outcome of creating the
client on the attempt made at retry count `rc`. Returns the boolean
result, the state left behind, and the list of backoff delays slept.
The loop makes at most `10 − retry_count` iterations; `fuel` bounds the
recursion by exactly that number. -/
def ensureInitAux (envInit : Nat → Bool) : AdapterState → Nat → Bool × AdapterState × List Nat
  | st, 0 => (false, st, [])
  | st, fuel + 1 =>
    if st.retry_count < 10 then
      if envInit st.retry_count then
        (true, { initialized := true, client := some (), retry_count := 0 }, [])
      else
        let rc := st.retry_count + 1
        if rc < 10 then
          let rest := ensureInitAux envInit { st with retry_count := rc } fuel
          (rest.1, rest.2.1, backoffDelay rc :: rest.2.2)
        else
          (false, { initialized := true, client := none, retry_count := rc }, [])
    else (false, st, [])

/-- `_ensure_initialized`: immediately true when already initialized with a
live client; otherwise run the retry loop. -/
def ensure_initialized (envInit : Nat → Bool) (st : AdapterState) :
    Bool × AdapterState × List Nat :=
  if st.initialized && st.client.isSome then (true, st, [])
  else ensureInitAux envInit st 10

/-- The fallible outcomes of the producer environment: client creation as
a function of the retry count, and whether `send`, `flush` and `close`
raise. -/
structure ProdEnv where
  initSucceeds : Nat → Bool
  sendFails : Bool
  flushFails : Bool
  closeFails : Bool

/-- `KafkaProducer.produce` (kafka_producer.py lines 95-130): reset a
previously failed producer, ensure initialization, skip the event when
unavailable, and on a publish failure log at warning, close the client
and clear the state so the next call re-initializes. Every exception
path of the source is caught, so the embedding is a total function. -/
def produce (env : ProdEnv) (st : AdapterState) : AdapterState × List Eff :=
  let st0 := if st.initialized && st.client.isNone then
    { st with initialized := false, retry_count := 0 } else st
  let r := ensure_initialized env.initSucceeds st0
  let sleeps := r.2.2.map Eff.sleep
  if !r.1 then (r.2.1, sleeps ++ [Eff.logWarning])
  else if env.sendFails then
    ({ initialized := false, client := none, retry_count := 0 },
     sleeps ++ [Eff.logWarning, Eff.closed])
  else (r.2.1, sleeps ++ [Eff.published, Eff.logDebug])

/-- `KafkaProducer.flush` (kafka_producer.py lines 132-141): no-op without
a client; a raising client flush is caught and logged at warning. -/
def flush (env : ProdEnv) (st : AdapterState) : AdapterState × List Eff :=
  match st.client with
  | none => (st, [])
  | some _ => if env.flushFails then (st, [Eff.logWarning]) else (st, [Eff.flushed])

/-- `KafkaProducer.close` (kafka_producer.py lines 143-152): no-op without
a client; a raising client close is caught and logged at warning. -/
def producer_close (env : ProdEnv) (st : AdapterState) : AdapterState × List Eff :=
  match st.client with
  | none => (st, [])
  | some _ => if env.closeFails then (st, [Eff.logWarning]) else (st, [Eff.closed])

/-- The fallible outcomes of the consumer environment: client creation as
a function of the retry count, and whether iterating the consumer or
closing it raises. -/
structure ConsEnv where
  initSucceeds : Nat → Bool
  iterFails : Bool
  closeFails : Bool

/-- One iteration of the `while True` loop of `KafkaConsumer.consume`
(kafka_consumer.py lines 130-160): when initialization fails, log a
warning, sleep 10 s and reset `_initialized` and `_retry_count` so the
next iteration retries from zero; when iterating the bus raises, log an
error, close the client, reset the state and sleep 5 s; otherwise process
the batch of messages. Every exception path of the source is caught, so
the embedding is a total function. -/
def consumeStep (env : ConsEnv) (st : AdapterState) (ms : List Msg) :
    AdapterState × List Eff :=
  let r := ensure_initialized env.initSucceeds st
  let sleeps := r.2.2.map Eff.sleep
  if !r.1 then
    ({ r.2.1 with initialized := false, retry_count := 0 },
     sleeps ++ [Eff.logWarning, Eff.sleep 10])
  else if env.iterFails then
    ({ initialized := false, client := none, retry_count := 0 },
     sleeps ++ [Eff.logError, Eff.closed, Eff.sleep 5])
  else (r.2.1, sleeps ++ processMsgs ms)

/-- `KafkaConsumer.close` (kafka_consumer.py lines 162-171): no-op without
a client; a raising client close is caught and logged at warning. -/
def consumer_close (env : ConsEnv) (st : AdapterState) : AdapterState × List Eff :=
  match st.client with
  | none => (st, [])
  | some _ => if env.closeFails then (st, [Eff.logWarning]) else (st, [Eff.closed])

/-! ### Concrete data for the closed evaluations -/

/-- A concrete frame of vehicle "A", scene "s0". -/
def frameAt (i : Nat) (t s : Rat) : Frame :=
  { event_id := i, vehicle_id := "A", scene_id := "s0", frame_index := i,
    event_time := t, speed := s, centroid_x := 0, centroid_y := 0 }

/-- Thirty-two concrete frames, frame index 0 to 31. -/
def exampleFrames : List Frame :=
  (List.range 32).map fun i => frameAt i ((i : Rat) / 10) 10

/-- A producer environment whose client always comes up but whose send
raises. -/
def envSendFail : ProdEnv :=
  { initSucceeds := fun _ => true, sendFails := true,
    flushFails := false, closeFails := false }

/-- A fully healthy producer environment. -/
def envHealthy : ProdEnv :=
  { initSucceeds := fun _ => true, sendFails := false,
    flushFails := false, closeFails := false }

/-- A producer environment whose client flush and close raise. -/
def envFlushCloseFail : ProdEnv :=
  { initSucceeds := fun _ => true, sendFails := false,
    flushFails := true, closeFails := true }

/-- A consumer environment whose broker is unreachable. -/
def envBrokerDown : ConsEnv :=
  { initSucceeds := fun _ => false, iterFails := false, closeFails := false }

/-- A consumer environment whose close raises. -/
def envConsCloseFail : ConsEnv :=
  { initSucceeds := fun _ => true, iterFails := false, closeFails := true }

/-- A concrete inbound batch: two well-ordered frames of vehicle "A" with a
malformed message between them. -/
def exampleMsgs : List Msg :=
  [Msg.good (frameAt 0 0 10), Msg.bad "junk", Msg.good (frameAt 1 (1/10) 9)]

/-! ## Helper lemmas -/

theorem yields_cons_good (f : Frame) (ms : List Msg) :
    yields (Msg.good f :: ms) = f :: yields ms := rfl

theorem yields_cons_bad (s : String) (ms : List Msg) :
    yields (Msg.bad s :: ms) = yields ms := rfl

/-- The yielded frames are exactly the decodable messages, in arrival
order: the consume loop is an order-preserving filter with no dedup. -/
theorem yields_eq_filterMap (ms : List Msg) :
    yields ms = ms.filterMap decode := by
  induction ms with
  | nil => rfl
  | cons m ms ih =>
    cases m with
    | good f => rw [yields_cons_good, List.filterMap_cons]; simp [decode, ih]
    | bad s => rw [yields_cons_bad, List.filterMap_cons]; simp [decode, ih]

theorem add_frames_cons (buf : List Frame) (f : Frame) (fs : List Frame) :
    add_frames buf (f :: fs) = add_frames (add_frame buf f) fs := rfl

theorem length_add_frame (buf : List Frame) (f : Frame)
    (h : buf.length ≤ RING_BUFFER_SIZE) :
    (add_frame buf f).length = if buf.length < RING_BUFFER_SIZE then buf.length + 1
      else RING_BUFFER_SIZE := by
  unfold add_frame
  by_cases hlt : buf.length < RING_BUFFER_SIZE
  · simp [hlt]
  · have heq : buf.length = RING_BUFFER_SIZE := le_antisymm h (not_lt.mp hlt)
    have hpos : buf ≠ [] := by
      intro hnil
      rw [hnil] at heq
      simp [RING_BUFFER_SIZE] at heq
    simp only [hlt, if_false]
    rw [List.length_append, List.length_tail, heq]
    simp [RING_BUFFER_SIZE]

/-- The general shape of the buffer: pushing `fs` onto a buffer of legal
size leaves the suffix of `buf ++ fs` of length at most `RING_BUFFER_SIZE`. -/
theorem add_frames_eq_drop (fs : List Frame) :
    ∀ buf : List Frame, buf.length ≤ RING_BUFFER_SIZE →
      add_frames buf fs = (buf ++ fs).drop (buf.length + fs.length - RING_BUFFER_SIZE) := by
  induction fs with
  | nil =>
    intro buf h
    have h0 : buf.length - RING_BUFFER_SIZE = 0 := by omega
    simp [add_frames, h0]
  | cons f fs ih =>
    intro buf h
    rw [add_frames_cons]
    by_cases hlt : buf.length < RING_BUFFER_SIZE
    · have hlen : (add_frame buf f).length = buf.length + 1 := by
        rw [length_add_frame buf f h]; simp [hlt]
      have h2 : (add_frame buf f).length ≤ RING_BUFFER_SIZE := by omega
      rw [ih (add_frame buf f) h2]
      have hb : add_frame buf f = buf ++ [f] := by simp [add_frame, hlt]
      rw [hb]
      have e1 : (buf ++ [f]) ++ fs = buf ++ f :: fs := by simp
      have e2 : (buf ++ [f]).length + fs.length - RING_BUFFER_SIZE
          = buf.length + (f :: fs).length - RING_BUFFER_SIZE := by
        simp only [List.length_append, List.length_cons, List.length_nil]
        omega
      rw [e1, e2]
    · have heq : buf.length = RING_BUFFER_SIZE := le_antisymm h (not_lt.mp hlt)
      have hpos : 0 < buf.length := by rw [heq]; simp [RING_BUFFER_SIZE]
      obtain ⟨b, t, hb⟩ : ∃ b t, buf = b :: t := by
        cases buf with
        | nil => simp at hpos
        | cons b t => exact ⟨b, t, rfl⟩
      have hb2 : add_frame buf f = buf.tail ++ [f] := by simp [add_frame, hlt]
      have hlen : (add_frame buf f).length = RING_BUFFER_SIZE := by
        rw [length_add_frame buf f h]; simp [hlt]
      rw [ih (add_frame buf f) (le_of_eq hlen)]
      rw [hb2]
      subst hb
      have ht : t.length = RING_BUFFER_SIZE - 1 := by
        simp only [List.length_cons] at heq; omega
      have e1 : ((b :: t).tail ++ [f]).length + fs.length - RING_BUFFER_SIZE
          = fs.length := by
        simp only [List.tail_cons, List.length_append, List.length_cons,
          List.length_nil]
        omega
      have e2 : (b :: t).length + (f :: fs).length - RING_BUFFER_SIZE
          = fs.length + 1 := by
        simp only [List.length_cons]
        omega
      rw [e1, e2]
      simp only [List.tail_cons, List.cons_append, List.append_assoc,
        List.singleton_append, List.drop_succ_cons, List.nil_append]

theorem detect_copies_frame_fields (thrS : SuddenDecelThresholds)
    (thrP : PerceptionThresholds) (agent_drop : Nat) (f : Frame)
    (feats : Features) (c p : Option Nat) :
    ∀ a ∈ detect thrS thrP agent_drop f feats c p,
      a.vehicle_id = f.vehicle_id ∧ a.scene_id = f.scene_id ∧
      a.frame_index = f.frame_index := by
  intro a ha
  unfold detect at ha
  rw [List.mem_filterMap] at ha
  obtain ⟨d, _, hmk⟩ := ha
  unfold mkAnomaly at hmk
  cases hsev : d.severity with
  | none => rw [hsev] at hmk; simp at hmk
  | some sev =>
    rw [hsev] at hmk
    by_cases ht : d.triggered = true
    · simp only [ht, if_true, Option.some.injEq] at hmk
      rw [← hmk]
      exact ⟨rfl, rfl, rfl⟩
    · simp [ht] at hmk

theorem processAll_mem (featFn : List Frame → Features)
    (thrS : SuddenDecelThresholds) (thrP : PerceptionThresholds)
    (agent_drop : Nat) (c p : Option Nat) (fs : List Frame) :
    ∀ store, ∀ a ∈ processAll featFn thrS thrP agent_drop c p store fs,
      ∃ f ∈ fs, a.vehicle_id = f.vehicle_id ∧ a.scene_id = f.scene_id ∧
        a.frame_index = f.frame_index := by
  induction fs with
  | nil => intro store a ha; simp [processAll] at ha
  | cons f fs ih =>
    intro store a ha
    simp only [processAll, List.mem_append] at ha
    cases ha with
    | inl h =>
      have := detect_copies_frame_fields thrS thrP agent_drop f
        (featFn (add_frame (storeGet store f.vehicle_id) f)) c p a h
      exact ⟨f, List.mem_cons_self f fs, this⟩
    | inr h =>
      obtain ⟨g, hg, hprop⟩ := ih _ a h
      exact ⟨g, List.mem_cons_of_mem f hg, hprop⟩

theorem processAll_pairwise (featFn : List Frame → Features)
    (thrS : SuddenDecelThresholds) (thrP : PerceptionThresholds)
    (agent_drop : Nat) (c p : Option Nat) (fs : List Frame) :
    ∀ store, fs.Pairwise FrameOrdered →
      (processAll featFn thrS thrP agent_drop c p store fs).Pairwise AnomalyOrdered := by
  induction fs with
  | nil => intro store _; simp [processAll]
  | cons f fs ih =>
    intro store hord
    rw [List.pairwise_cons] at hord
    simp only [processAll, processFrame]
    rw [List.pairwise_append]
    refine ⟨?_, ih _ hord.2, ?_⟩
    · -- anomalies of one frame all carry the same triple, so ≤ is reflexive
      have hsame := detect_copies_frame_fields thrS thrP agent_drop f
        (featFn (add_frame (storeGet store f.vehicle_id) f)) c p
      rw [List.pairwise_iff_forall_sublist]
      intro a b hsub
      have ha := hsub.subset (List.mem_cons_self a [b])
      have hb := hsub.subset (List.mem_cons_of_mem a (List.mem_cons_self b []))
      obtain ⟨hv1, hs1, hi1⟩ := hsame a ha
      obtain ⟨hv2, hs2, hi2⟩ := hsame b hb
      intro _ _
      omega
    · intro a ha b hb
      obtain ⟨hv1, hs1, hi1⟩ := detect_copies_frame_fields thrS thrP agent_drop f
        (featFn (add_frame (storeGet store f.vehicle_id) f)) c p a ha
      obtain ⟨g, hg, hv2, hs2, hi2⟩ :=
        processAll_mem featFn thrS thrP agent_drop c p fs _ b hb
      intro hv hs
      have hvfg : f.vehicle_id = g.vehicle_id := by rw [← hv1, ← hv2]; exact hv
      have hsfg : f.scene_id = g.scene_id := by rw [← hs1, ← hs2]; exact hs
      have := hord.1 g hg hvfg hsfg
      omega

/-- The consume loop maintains no counters at all: no trace ever contains
a counter increment. -/
theorem processMsgs_no_counter (ms : List Msg) (name : String) :
    Eff.incrCounter name ∉ processMsgs ms := by
  induction ms with
  | nil => intro h; simp [processMsgs] at h
  | cons m ms ih =>
    intro h
    have hc : processMsgs (m :: ms) = processMsg m ++ processMsgs ms := rfl
    rw [hc, List.mem_append] at h
    cases h with
    | inl h => cases m <;> simp [processMsg, decode] at h
    | inr h => exact ih h

/-- With fuel left, a retry count under the cap, and a client creation that
succeeds at the current count, the retry loop succeeds immediately with no
sleeps. -/
theorem ensureInitAux_pos (envInit : Nat → Bool) (st : AdapterState) (fuel : Nat)
    (hf : 0 < fuel) (h1 : st.retry_count < 10) (h2 : envInit st.retry_count = true) :
    ensureInitAux envInit st fuel
      = (true, { initialized := true, client := some (), retry_count := 0 }, []) := by
  cases fuel with
  | zero => omega
  | succ n => simp [ensureInitAux, h1, h2]

/-- `_ensure_initialized` on a not-ready state whose creation succeeds:
returns true with the live-client state and no sleeps. -/
theorem ensure_initialized_succeeds (envInit : Nat → Bool) (st : AdapterState)
    (h1 : st.retry_count < 10) (h2 : envInit st.retry_count = true)
    (hnr : (st.initialized && st.client.isSome) = false) :
    ensure_initialized envInit st
      = (true, { initialized := true, client := some (), retry_count := 0 }, []) := by
  unfold ensure_initialized
  simp only [hnr, Bool.false_eq_true, if_false]
  exact ensureInitAux_pos envInit st 10 (by norm_num) h1 h2

/-! ## Claim theorems -/

/-- C1 counterexample: the consume loop of `KafkaConsumer.consume` performs
no deduplication (the source carries only a TODO comment for it), so
feeding the same `event_id` twice hands two frames with that id to the
detection core, refuting the claim that the repeated id is dropped. -/
theorem c1_counterexample_duplicate_delivered_twice :
    ((yields [Msg.good (frameAt 7 0 10), Msg.good (frameAt 7 0 10)]).filter
      (fun f => f.event_id == 7)).length = 2 := by decide

/-- C1 (amended): the ingest adapter performs no deduplication: every
successfully decoded message is handed to the detection core in arrival
order, messages repeating an earlier `event_id` included, so the detector
may see several frames per `event_id`. -/
theorem c1_no_dedup_every_decoded_message_delivered (ms : List Msg) :
    yields ms = ms.filterMap decode ∧
    ∀ e : Nat, ((yields ms).filter (fun f => f.event_id == e)).length
      = ((ms.filterMap decode).filter (fun f => f.event_id == e)).length := by
  refine ⟨yields_eq_filterMap ms, fun e => ?_⟩
  rw [yields_eq_filterMap]

/-- C9 counterexample: on a malformed message the consume loop only logs a
warning and moves on; in particular no `decode_errors` counter is
incremented (the code maintains no counter at all), refuting the
counter-increment part of the claim. -/
theorem c9_counterexample_no_decode_errors_counter :
    processMsgs [Msg.bad "oops"] = [Eff.logWarning] ∧
    Eff.incrCounter "decode_errors" ∉ processMsgs [Msg.bad "oops"] := by
  refine ⟨rfl, ?_⟩
  decide

/-- C9 (amended): a message that fails to decode is logged at warning and
skipped, the consume loop continues with the remaining messages and never
raises, but no `decode_errors` counter is incremented — the code keeps no
counters. -/
theorem c9_decode_error_logged_and_skipped (s : String) (ms : List Msg) :
    processMsgs (Msg.bad s :: ms) = Eff.logWarning :: processMsgs ms ∧
    yields (Msg.bad s :: ms) = yields ms ∧
    ∀ name, Eff.incrCounter name ∉ processMsgs (Msg.bad s :: ms) :=
  ⟨rfl, rfl, fun name => processMsgs_no_counter _ name⟩

/-- C3 counterexample: with a gap of `Δt = 2 s` between the newest two
frames the extractor still returns `Δs / Δt` (here `−5/2 m/s²`), refuting
the claim that the feature is absent whenever `Δt > 1.0 s` — per the
spec's own design note, the source applies no such filter. -/
theorem c3_counterexample_no_gap_filter :
    (frameAt 1 2 5).event_time - (frameAt 0 0 10).event_time = 2 ∧
    extract_acceleration [frameAt 0 0 10, frameAt 1 2 5] = some (-5/2) := by
  constructor
  · norm_num [frameAt]
  · unfold extract_acceleration
    norm_num [frameAt]

/-- C3 (amended): for an ordered snapshot of length `k`, the acceleration
feature is absent when `k < 2` or `Δt ≤ 0`, and equals `Δs / Δt` (m/s²)
whenever `k ≥ 2` and `Δt > 0` — with no upper filter on `Δt`. -/
theorem c3_acceleration_characterization (frames : List Frame) :
    (frames.length < 2 → extract_acceleration frames = none) ∧
    ∀ f_last f_prev rest, frames.reverse = f_last :: f_prev :: rest →
      ((f_last.event_time - f_prev.event_time ≤ 0 →
          extract_acceleration frames = none) ∧
       (0 < f_last.event_time - f_prev.event_time →
          extract_acceleration frames
            = some ((f_last.speed - f_prev.speed)
                / (f_last.event_time - f_prev.event_time)))) := by
  constructor
  · intro h
    match frames with
    | [] => rfl
    | [f] => rfl
    | a :: b :: l => simp only [List.length_cons] at h; omega
  · intro f_last f_prev rest hrev
    constructor
    · intro hdt
      unfold extract_acceleration
      rw [hrev]
      simp [hdt]
    · intro hdt
      unfold extract_acceleration
      rw [hrev]
      simp [not_le.mpr hdt]

/-- C3 witness: two frames 100 ms apart, decelerating from 10 to 5 m/s:
the extractor reports −50 m/s². -/
theorem c3_acceleration_witness :
    extract_acceleration [frameAt 0 0 10, frameAt 1 (1/10) 5] = some (-50) := by
  have h := ((c3_acceleration_characterization
      [frameAt 0 0 10, frameAt 1 (1/10) 5]).2
      (frameAt 1 (1/10) 5) (frameAt 0 0 10) [] rfl).2 (by norm_num [frameAt])
  norm_num [frameAt] at h
  exact h

/-- C5: after pushing `N + k` frames into the empty ring buffer of capacity
`N = RING_BUFFER_SIZE = 30`, the snapshot is exactly the last `N` pushed
frames in push order (oldest to newest), its length is `N`, and its oldest
element is the `(k+1)`-th pushed frame. -/
theorem c5_ring_buffer_overflow (k : Nat) (fs : List Frame)
    (h : fs.length = RING_BUFFER_SIZE + k) :
    add_frames [] fs = fs.drop k ∧
    (add_frames [] fs).length = RING_BUFFER_SIZE ∧
    (add_frames [] fs).head? = fs[k]? := by
  have hmain := add_frames_eq_drop fs [] (by simp)
  simp only [List.nil_append, List.length_nil, Nat.zero_add] at hmain
  have hk : fs.length - RING_BUFFER_SIZE = k := by omega
  rw [hk] at hmain
  refine ⟨hmain, ?_, ?_⟩
  · rw [hmain, List.length_drop]; omega
  · rw [hmain]
    have hklt : k < fs.length := by
      have : (0 : Nat) < RING_BUFFER_SIZE := by norm_num [RING_BUFFER_SIZE]
      omega
    rw [List.drop_eq_getElem_cons hklt]
    simp [List.getElem?_eq_getElem hklt]

/-- C5 witness: 32 pushed frames leave the last 30, with the 3rd push
oldest. -/
theorem c5_ring_buffer_witness :
    add_frames [] exampleFrames = exampleFrames.drop 2 ∧
    (add_frames [] exampleFrames).length = RING_BUFFER_SIZE ∧
    (add_frames [] exampleFrames).head? = exampleFrames[2]? :=
  c5_ring_buffer_overflow 2 exampleFrames
    (by simp [exampleFrames, RING_BUFFER_SIZE])

/-- C8: the heading-change feature is the absolute value of the wrapped
yaw difference `atan2(sin(b − a), cos(b − a))`, and for all real yaw
values it lies in the closed interval `[0, π]`. -/
theorem c8_heading_change_range (a b : ℝ) :
    extract_heading_change a b
      = |atan2 (Real.sin (b - a)) (Real.cos (b - a))| ∧
    0 ≤ extract_heading_change a b ∧
    extract_heading_change a b ≤ Real.pi :=
  ⟨rfl, abs_nonneg _, Complex.abs_arg_le_pi _⟩

/-- C4: with the default thresholds (warning −3.0, critical −5.0), the
SuddenDeceleration rule triggers CRITICAL exactly when the acceleration
feature is present and ≤ −5, WARNING exactly when it is present, > −5
and ≤ −3 (inclusive boundary), and does not trigger exactly when the
feature is absent or > −3. -/
theorem c4_sudden_deceleration_rule (acc : Option Rat) :
    ((suddenDecelerationEvaluate defaultSuddenDecelThresholds acc).triggered = true ∧
      (suddenDecelerationEvaluate defaultSuddenDecelThresholds acc).severity
        = some Severity.CRITICAL
     ↔ ∃ a, acc = some a ∧ a ≤ -5) ∧
    ((suddenDecelerationEvaluate defaultSuddenDecelThresholds acc).triggered = true ∧
      (suddenDecelerationEvaluate defaultSuddenDecelThresholds acc).severity
        = some Severity.WARNING
     ↔ ∃ a, acc = some a ∧ -5 < a ∧ a ≤ -3) ∧
    ((suddenDecelerationEvaluate defaultSuddenDecelThresholds acc).triggered = false
     ↔ acc = none ∨ ∃ a, acc = some a ∧ -3 < a) := by
  rcases acc with _ | a
  · simp [suddenDecelerationEvaluate]
  · by_cases h5 : a ≤ (-5 : Rat)
    · have h5l : ¬((-5 : Rat) < a) := not_lt.mpr h5
      have h3 : a ≤ (-3 : Rat) := by linarith
      have h3l : ¬((-3 : Rat) < a) := not_lt.mpr h3
      simp [suddenDecelerationEvaluate, defaultSuddenDecelThresholds, h5, h5l, h3l]
    · by_cases h3 : a ≤ (-3 : Rat)
      · have h3l : ¬((-3 : Rat) < a) := not_lt.mpr h3
        simp [suddenDecelerationEvaluate, defaultSuddenDecelThresholds, h5,
          not_le.mp h5, h3, h3l]
      · simp [suddenDecelerationEvaluate, defaultSuddenDecelThresholds, h5,
          h3, not_le.mp h3]

/-- C2: if the inbound messages are, per vehicle and scene, non-decreasing
in `frame_index` whenever they decode (the broker's partition-key ordering
the spec assumes), then the frames the adapter hands to the core are
non-decreasing in `frame_index` per vehicle and scene — the consume loop
preserves arrival order — and consequently the anomalies the engine emits
over those frames are non-decreasing in the `frame_index` of their
triggering frames, for every feature computation and threshold
configuration. -/
theorem c2_per_vehicle_ordering (featFn : List Frame → Features)
    (thrS : SuddenDecelThresholds) (thrP : PerceptionThresholds)
    (agent_drop : Nat) (c p : Option Nat) (ms : List Msg)
    (hord : ms.Pairwise MsgOrdered) :
    (yields ms).Pairwise FrameOrdered ∧
    (processAll featFn thrS thrP agent_drop c p []
      (yields ms)).Pairwise AnomalyOrdered := by
  have h1 : (yields ms).Pairwise FrameOrdered := by
    rw [yields_eq_filterMap, List.pairwise_filterMap]
    refine hord.imp (fun {m1 m2} h => ?_)
    intro f1 hf1 f2 hf2
    rw [Option.mem_def] at hf1 hf2
    unfold MsgOrdered at h
    rw [hf1, hf2] at h
    exact h
  exact ⟨h1, processAll_pairwise featFn thrS thrP agent_drop c p _ [] h1⟩

/-- C2 witness: a concrete ordered batch with a malformed message in the
middle. -/
theorem c2_per_vehicle_ordering_witness :
    (yields exampleMsgs).Pairwise FrameOrdered ∧
    (processAll (fun _ => { acceleration := none, centroid_displacement := none })
      defaultSuddenDecelThresholds { centroid_warning := 5, centroid_critical := 10 }
      5 none none [] (yields exampleMsgs)).Pairwise AnomalyOrdered :=
  c2_per_vehicle_ordering _ _ _ _ _ _ exampleMsgs
    (by norm_num [exampleMsgs, List.pairwise_cons, MsgOrdered, decode,
      FrameOrdered, frameAt])

/-- C6: when the client comes up but publishing raises, `produce` returns
normally with the anomaly logged at warning and dropped (nothing
published), the client closed and the state cleared; the next `produce`
call re-initializes the producer and publishes again. -/
theorem c6_publish_failure_recovery (env env2 : ProdEnv) (st : AdapterState)
    (hrc : st.retry_count < 10) (hinit : ∀ n, env.initSucceeds n = true)
    (hsend : env.sendFails = true)
    (h2i : env2.initSucceeds 0 = true) (h2s : env2.sendFails = false) :
    produce env st
      = ({ initialized := false, client := none, retry_count := 0 },
         [Eff.logWarning, Eff.closed]) ∧
    produce env2 (produce env st).1
      = ({ initialized := true, client := some (), retry_count := 0 },
         [Eff.published, Eff.logDebug]) := by
  have hmain : produce env st
      = ({ initialized := false, client := none, retry_count := 0 },
         [Eff.logWarning, Eff.closed]) := by
    by_cases h0 : st.initialized && st.client.isNone
    · have hE := ensure_initialized_succeeds env.initSucceeds
        { st with initialized := false, retry_count := 0 }
        (by simp) (hinit _) (by simp)
      simp [produce, h0, hE, hsend]
    · by_cases h1 : st.initialized && st.client.isSome
      · have hE : ensure_initialized env.initSucceeds st = (true, st, []) := by
          unfold ensure_initialized
          simp [h1]
        simp [produce, h0, hE, hsend]
      · have hnr : (st.initialized && st.client.isSome) = false := by
          simpa using h1
        have hE := ensure_initialized_succeeds env.initSucceeds st hrc
          (hinit _) hnr
        simp [produce, h0, hE, hsend]
  refine ⟨hmain, ?_⟩
  rw [hmain]
  have hE2 : ensure_initialized env2.initSucceeds
      { initialized := false, client := none, retry_count := 0 }
      = (true, { initialized := true, client := some (), retry_count := 0 }, []) :=
    ensure_initialized_succeeds _ _ (by norm_num) h2i (by simp)
  simp [produce, hE2, h2s]

/-- C6 witness: concrete environments, starting from the fresh state. -/
theorem c6_publish_failure_recovery_witness :
    produce envSendFail freshAdapterState
      = ({ initialized := false, client := none, retry_count := 0 },
         [Eff.logWarning, Eff.closed]) ∧
    produce envHealthy (produce envSendFail freshAdapterState).1
      = ({ initialized := true, client := some (), retry_count := 0 },
         [Eff.published, Eff.logDebug]) :=
  c6_publish_failure_recovery envSendFail envHealthy freshAdapterState
    (by norm_num [freshAdapterState]) (fun _ => rfl) rfl rfl rfl

/-- C7: on a dead broker the consume loop makes 10 consecutive
initialization attempts, sleeping the capped exponential backoff sequence
2, 4, 8, 15, 15, 15, 15, 15, 15 seconds between them; after the 10th
failure it logs a warning, waits 10 s and restarts with the retry counter
at zero (the state returns to the fresh state). The backoff delays are
2 s after the first failure, doubling and capped at 15 s from the 4th
failure on. A transport fault while iterating the bus is caught inside
the loop: the client is closed, the state reset, and the loop sleeps 5 s
and continues — the fault is never propagated to detection logic. -/
theorem c7_transport_backoff (env : ConsEnv) (ms : List Msg)
    (h : ∀ n, env.initSucceeds n = false) :
    consumeStep env freshAdapterState ms
      = (freshAdapterState,
         [Eff.sleep 2, Eff.sleep 4, Eff.sleep 8, Eff.sleep 15, Eff.sleep 15,
          Eff.sleep 15, Eff.sleep 15, Eff.sleep 15, Eff.sleep 15,
          Eff.logWarning, Eff.sleep 10]) ∧
    (backoffDelay 1 = 2 ∧ backoffDelay 2 = 4 ∧ backoffDelay 3 = 8) ∧
    (∀ n, 4 ≤ n → backoffDelay n = 15) ∧
    (∀ envF : ConsEnv, ∀ (stF : AdapterState) (msF : List Msg),
      envF.initSucceeds stF.retry_count = true → stF.retry_count < 10 →
      (stF.initialized && stF.client.isSome) = false → envF.iterFails = true →
      consumeStep envF stF msF
        = ({ initialized := false, client := none, retry_count := 0 },
           [Eff.logError, Eff.closed, Eff.sleep 5])) := by
  refine ⟨?_, by decide, ?_, ?_⟩
  · have he : env.initSucceeds = fun _ => false := funext h
    simp only [consumeStep, ensure_initialized, he]
    rfl
  · intro n hn
    unfold backoffDelay
    have h8 : (8 : Nat) ≤ 2 ^ (n - 1) := by
      calc (8 : Nat) = 2 ^ 3 := by norm_num
      _ ≤ 2 ^ (n - 1) := Nat.pow_le_pow_right (by norm_num) (by omega)
    exact min_eq_right (by omega)
  · intro envF stF msF hi hrc hnr hit
    have hE := ensure_initialized_succeeds envF.initSucceeds stF hrc hi hnr
    simp [consumeStep, hE, hit]

/-- C7 witness: the dead-broker environment on the fresh state. -/
theorem c7_transport_backoff_witness :
    consumeStep envBrokerDown freshAdapterState []
      = (freshAdapterState,
         [Eff.sleep 2, Eff.sleep 4, Eff.sleep 8, Eff.sleep 15, Eff.sleep 15,
          Eff.sleep 15, Eff.sleep 15, Eff.sleep 15, Eff.sleep 15,
          Eff.logWarning, Eff.sleep 10]) :=
  (c7_transport_backoff envBrokerDown [] (fun _ => rfl)).1

/-- C10: the emit adapter's `flush` and `close` and the ingest adapter's
`close` are total: with no underlying client they are no-ops returning the
state unchanged with no effects, and when the underlying client raises,
the exception is caught and logged at warning — none of the three
operations ever propagates an exception. -/
theorem c10_flush_close_total (envP : ProdEnv) (envC : ConsEnv)
    (st : AdapterState) :
    (st.client = none →
      flush envP st = (st, []) ∧ producer_close envP st = (st, []) ∧
      consumer_close envC st = (st, [])) ∧
    (∀ u, st.client = some u → envP.flushFails = true →
      flush envP st = (st, [Eff.logWarning])) ∧
    (∀ u, st.client = some u → envP.closeFails = true →
      producer_close envP st = (st, [Eff.logWarning])) ∧
    (∀ u, st.client = some u → envC.closeFails = true →
      consumer_close envC st = (st, [Eff.logWarning])) := by
  refine ⟨?_, ?_, ?_, ?_⟩
  · intro h; simp [flush, producer_close, consumer_close, h]
  · intro u h hf; simp [flush, h, hf]
  · intro u h hc; simp [producer_close, h, hc]
  · intro u h hc; simp [consumer_close, h, hc]

/-- C10 witness: the no-client no-op and the three raising-client cases. -/
theorem c10_flush_close_total_witness :
    flush envFlushCloseFail freshAdapterState = (freshAdapterState, []) ∧
    flush envFlushCloseFail { initialized := true, client := some (), retry_count := 0 }
      = ({ initialized := true, client := some (), retry_count := 0 }, [Eff.logWarning]) ∧
    producer_close envFlushCloseFail { initialized := true, client := some (), retry_count := 0 }
      = ({ initialized := true, client := some (), retry_count := 0 }, [Eff.logWarning]) ∧
    consumer_close envConsCloseFail { initialized := true, client := some (), retry_count := 0 }
      = ({ initialized := true, client := some (), retry_count := 0 }, [Eff.logWarning]) :=
  ⟨((c10_flush_close_total envFlushCloseFail envConsCloseFail
      freshAdapterState).1 rfl).1,
   (c10_flush_close_total envFlushCloseFail envConsCloseFail
      { initialized := true, client := some (), retry_count := 0 }).2.1 () rfl rfl,
   (c10_flush_close_total envFlushCloseFail envConsCloseFail
      { initialized := true, client := some (), retry_count := 0 }).2.2.1 () rfl rfl,
   (c10_flush_close_total envFlushCloseFail envConsCloseFail
      { initialized := true, client := some (), retry_count := 0 }).2.2.2 () rfl rfl⟩

end Fleet
